import Mathlib

/-!
Verification of the weather MCP server core routine
(`src/mcp_server/server.py`, `get_current_weather`) against its
natural-language specification.

The Python routine is shallowly embedded: provider float values are
modelled as rationals, the provider call as an explicit function from the
built request parameters to an outcome (success / the three exception
classes the `except` clauses catch), and Python string formatting as
executable functions on rationals and integers.
-/

set_option maxRecDepth 100000

namespace WeatherServer

/-- A latitude/longitude pair, as stored in `CITY_COORDINATES`. -/
structure Coord where
  latitude : ℚ
  longitude : ℚ
deriving DecidableEq

/-- The static city table of `server.py` (lines 31-38), verbatim. -/
def CITY_COORDINATES : List (String × Coord) :=
  [("London", ⟨mkRat 515074 10000, mkRat 1278 10000⟩),
   ("New York", ⟨mkRat 407128 10000, mkRat (-740060) 10000⟩),
   ("Paris", ⟨mkRat 488566 10000, mkRat 23522 10000⟩),
   ("Berlin", ⟨mkRat 5252 100, mkRat 1341 100⟩),
   ("Tokyo", ⟨mkRat 356895 10000, mkRat 1396917 10000⟩),
   ("Mumbai", ⟨mkRat 190760 10000, mkRat 728777 10000⟩)]

/-- The static weather-code table of `server.py` (lines 42-71), verbatim. -/
def WEATHER_CODES : List (ℤ × String) :=
  [(0, "Clear sky"),
   (1, "Mainly clear"),
   (2, "Partly cloudy"),
   (3, "Overcast"),
   (45, "Fog"),
   (48, "Depositing rime fog"),
   (51, "Drizzle (light)"),
   (53, "Drizzle (moderate)"),
   (55, "Drizzle (dense intensity)"),
   (56, "Freezing Drizzle (light)"),
   (57, "Freezing Drizzle (dense intensity)"),
   (61, "Rain (slight)"),
   (63, "Rain (moderate)"),
   (65, "Rain (heavy intensity)"),
   (66, "Freezing Rain (light)"),
   (67, "Freezing Rain (heavy intensity)"),
   (71, "Snow fall (slight)"),
   (73, "Snow fall (moderate)"),
   (75, "Snow fall (heavy intensity)"),
   (77, "Snow grains"),
   (80, "Rain showers (slight)"),
   (81, "Rain showers (moderate)"),
   (82, "Rain showers (violent)"),
   (85, "Snow showers (slight)"),
   (86, "Snow showers (heavy)"),
   (95, "Thunderstorm (slight or moderate)"),
   (96, "Thunderstorm with slight hail"),
   (99, "Thunderstorm with heavy hail")]

/-- `CITY_COORDINATES.get(city)`: exact-string dictionary lookup. -/
def cityLookup (city : String) : Option Coord :=
  CITY_COORDINATES.lookup city

/-- `WEATHER_CODES.get(code, default)` without the default:
dictionary lookup on the integer key. -/
def weatherCodeLookup (code : ℤ) : Option String :=
  WEATHER_CODES.lookup code

/-- The outbound request parameters dict built at `server.py` lines 99-107. -/
structure Params where
  latitude : ℚ
  longitude : ℚ
  hourly : String
  current : List String
  temperature_unit : String
  wind_speed_unit : String
  timezone : String
deriving DecidableEq

/-- Construction of the `params` dict (`server.py` lines 99-107):
`"temperature_unit": "celsius" if units == "metric" else "fahrenheit"`,
`"wind_speed_unit": "ms" if units == "metric" else "mph"`. -/
def buildParams (latitude longitude : ℚ) (units : String) : Params :=
  ⟨latitude, longitude,
   "temperature_2m",
   ["temperature_2m", "weather_code", "wind_speed_10m", "relative_humidity_2m"],
   if units = "metric" then "celsius" else "fahrenheit",
   if units = "metric" then "ms" else "mph",
   "auto"⟩

/-- The provider's structured reply (`responses[0]` of the Open-Meteo SDK):
current-instant values addressed positionally by `current.Variables(i).Value()`,
the hourly temperature series `hourly.Variables(0).ValuesAsNumpy()` with its
base timestamp `hourly.Time()`, step `hourly.Interval()`, and the location
metadata accessors used by the routine. -/
structure RawForecastResponse where
  currentValue : ℕ → ℚ
  hourlyValues : List ℚ
  hourlyTime : ℤ
  hourlyInterval : ℤ
  utcOffsetSeconds : ℤ
  latitude : ℚ
  longitude : ℚ
  elevation : ℚ

/-- Outcome of the provider call `openmeteo_client.weather_api(...)` together
with the parse of `responses[0]`: either a structured response, or one of the
three failure classes the routine's `except` clauses distinguish
(`httpx.HTTPStatusError`, `httpx.RequestError`, any other `Exception`). -/
inductive ProviderOutcome where
  | success (r : RawForecastResponse)
  | httpStatusError (status : ℕ) (body : String)
  | requestError (description : String)
  | otherError (description : String)

/-- Python `int(x)` on a float value: truncation toward zero. -/
def pyInt (q : ℚ) : ℤ :=
  q.num.tdiv (q.den : ℤ)

/-- Nearest integer to `10 * q`, ties toward positive infinity — the scaled
kernel of Python's `%.1f` fixed-point formatting (Python breaks ties on the
underlying binary float; no value formatted by the claims sits on a tie).
Computed directly on the numerator and denominator, as
`⌊(10 q) + 1/2⌋ = ⌊(20 num + den) / (2 den)⌋`. -/
def roundTenths (q : ℚ) : ℤ :=
  (2 * (10 * q.num) + (q.den : ℤ)).fdiv (2 * (q.den : ℤ))

/-- Python `f"{x:.1f}"`: the value rounded to tenths, rendered with exactly
one digit after the point. -/
def fmt1 (q : ℚ) : String :=
  let n : ℤ := roundTenths q
  let sign := if n < 0 then "-" else ""
  let m := n.natAbs
  sign ++ toString (m / 10) ++ "." ++ toString (m % 10)

/-- Decimal digits of the proper fraction `n / d` (with `n < d`), most
significant first, stopping at the exact expansion; `fuel` bounds recursion. -/
def fracDigits : ℕ → ℕ → ℕ → String
  | 0, _, _ => ""
  | _, 0, _ => ""
  | fuel + 1, n, d =>
      let n10 := n * 10
      String.singleton (Char.ofNat (48 + n10 / d)) ++ fracDigits fuel (n10 % d) d

/-- Python `f"{x}"` on a float holding an exact short decimal value (the only
values the claims evaluate): the shortest decimal rendering, with `.0`
appended for integral values — `f"{55.0}"` is `"55.0"`. -/
def pyFloatStr (q : ℚ) : String :=
  let sign := if q.num < 0 then "-" else ""
  let m := q.num.natAbs
  let ip := m / q.den
  let rem := m % q.den
  sign ++ toString ip ++ "." ++ (if rem = 0 then "0" else fracDigits 30 rem q.den)

/-- Zero-padded two-digit rendering of `n` (assumed `< 100`). -/
def pad2 (n : ℕ) : String :=
  if n < 10 then "0" ++ toString n else toString n

/-- `strftime("%H:%M")` on the UTC datetime built from epoch second `t`:
zero-padded 24-hour wall-clock hours and minutes. -/
def fmtHM (t : ℤ) : String :=
  let e := (t.emod 86400).toNat
  pad2 (e / 3600) ++ ":" ++ pad2 (e % 3600 / 60)

/-- The epoch second displayed for hourly point `i`
(`server.py` lines 133-136): `hourly.Time() + i * hourly.Interval()`
shifted by `response.UtcOffsetSeconds()`. -/
def hourlyLocalTime (resp : RawForecastResponse) (i : ℕ) : ℤ :=
  resp.hourlyTime + (i : ℤ) * resp.hourlyInterval + resp.utcOffsetSeconds

/-- One entry of the hourly forecast list (`server.py` lines 137-140):
the local time as `"HH:MM"` and the temperature at one decimal with the
unit symbol appended. -/
def hourlyEntry (resp : RawForecastResponse) (unitSymbol : String) (i : ℕ) :
    String × String :=
  (fmtHM (hourlyLocalTime resp i),
   fmt1 (resp.hourlyValues.getD i 0) ++ unitSymbol)

/-- The hourly forecast loop (`server.py` lines 129-140):
`for i in range(min(3, len(hourly_temperature_2m)))`. -/
def hourlyDataPoints (resp : RawForecastResponse) (unitSymbol : String) :
    List (String × String) :=
  (List.range (min 3 resp.hourlyValues.length)).map (hourlyEntry resp unitSymbol)

/-- Positional extraction of the current-instant values
(`server.py` lines 116-119): index 0. -/
def extractCurrentTemperature (resp : RawForecastResponse) : ℚ :=
  resp.currentValue 0

/-- Positional extraction, index 1. -/
def extractWeatherCode (resp : RawForecastResponse) : ℚ :=
  resp.currentValue 1

/-- Positional extraction, index 2. -/
def extractWindSpeed (resp : RawForecastResponse) : ℚ :=
  resp.currentValue 2

/-- Positional extraction, index 3. -/
def extractHumidity (resp : RawForecastResponse) : ℚ :=
  resp.currentValue 3

/-- The successful result dict (`server.py` lines 142-155). -/
structure WeatherReport where
  city : String
  current_temperature : String
  conditions : String
  humidity : String
  wind_speed : String
  hourly_forecast_next_3_hours : List (String × String)
  meta_latitude : ℚ
  meta_longitude : ℚ
  meta_elevation : ℚ
  meta_timezone_offset : ℤ
deriving DecidableEq

/-- The routine's return value: either the success dict or the
`{"error": ...}` dict. -/
inductive ToolResult where
  | ok (report : WeatherReport)
  | error (message : String)
deriving DecidableEq

/-- Whether a result is the error shape. -/
def ToolResult.isError : ToolResult → Bool
  | .ok _ => false
  | .error _ => true

/-- Assembly of the success dict from a parsed provider response
(`server.py` lines 114-155). -/
def buildReport (city units : String) (resp : RawForecastResponse) :
    WeatherReport :=
  let current_temperature_2m := extractCurrentTemperature resp
  let current_weather_code := extractWeatherCode resp
  let current_wind_speed := extractWindSpeed resp
  let current_humidity := extractHumidity resp
  let weather_description :=
    (weatherCodeLookup (pyInt current_weather_code)).getD "Unknown conditions"
  let unit_symbol := if units = "metric" then "°C" else "°F"
  let speed_unit := if units = "metric" then "m/s" else "mph"
  ⟨city,
   fmt1 current_temperature_2m ++ unit_symbol,
   weather_description,
   pyFloatStr current_humidity ++ "%",
   fmt1 current_wind_speed ++ " " ++ speed_unit,
   hourlyDataPoints resp unit_symbol,
   resp.latitude, resp.longitude, resp.elevation, resp.utcOffsetSeconds⟩

/-- `get_current_weather(city, units)` (`server.py` lines 75-167), with the
provider call abstracted as a function from the built params to an outcome.
The three `except` clauses become the three failure branches; their messages
are the source's f-strings verbatim. -/
def get_current_weather (provider : Params → ProviderOutcome)
    (city units : String) : ToolResult :=
  match cityLookup city with
  | none =>
      .error ("City \x27" ++ city ++ "\x27 not found. Please provide a supported city.")
  | some coords =>
      let params := buildParams coords.latitude coords.longitude units
      match provider params with
      | .success resp => .ok (buildReport city units resp)
      | .httpStatusError status _ =>
          .error ("HTTP error: " ++ toString status ++ " for " ++ city ++
            ". Check city name or API configuration.")
      | .requestError _ =>
          .error ("Network error: Could not connect to weather service for " ++
            city ++ ".")
      | .otherError description =>
          .error ("An unexpected error occurred: " ++ description)

/-- A synthetic provider response carrying the §8 round-trip current values
`[21.3, 61, 3.2, 55]` and a 3-point hourly series, used as a concrete
evaluation point. -/
def testResponse : RawForecastResponse :=
  ⟨fun i => [mkRat 213 10, mkRat 61 1, mkRat 32 10, mkRat 55 1].getD i 0,
   [mkRat 201 10, mkRat 195 10, mkRat 189 10],
   1700000000, 3600, 3600,
   mkRat 5252 100, mkRat 1341 100, mkRat 38 1⟩

/-- A provider double that always succeeds with `testResponse`. -/
def testProvider : Params → ProviderOutcome :=
  fun _ => .success testResponse

/-- A synthetic provider response whose hourly series holds exactly one
point. -/
def onePointResponse : RawForecastResponse :=
  ⟨fun i => [mkRat 213 10, mkRat 61 1, mkRat 32 10, mkRat 55 1].getD i 0,
   [mkRat 201 10],
   1700000000, 3600, 3600,
   mkRat 5252 100, mkRat 1341 100, mkRat 38 1⟩

/-- A provider double that always succeeds with `onePointResponse`. -/
def onePointProvider : Params → ProviderOutcome :=
  fun _ => .success onePointResponse

/-- A synthetic provider response whose current weather code, 12, is absent
from `WEATHER_CODES`. -/
def unknownCodeResponse : RawForecastResponse :=
  ⟨fun i => [mkRat 213 10, mkRat 12 1, mkRat 32 10, mkRat 55 1].getD i 0,
   [mkRat 201 10],
   1700000000, 3600, 3600,
   mkRat 5252 100, mkRat 1341 100, mkRat 38 1⟩

/-- A provider double that always succeeds with `unknownCodeResponse`. -/
def unknownCodeProvider : Params → ProviderOutcome :=
  fun _ => .success unknownCodeResponse

/-- A synthetic provider response whose current weather code is the
non-integer value 61.9. -/
def fracCodeResponse : RawForecastResponse :=
  ⟨fun i => [mkRat 213 10, mkRat 619 10, mkRat 32 10, mkRat 55 1].getD i 0,
   [mkRat 201 10],
   1700000000, 3600, 3600,
   mkRat 5252 100, mkRat 1341 100, mkRat 38 1⟩

/-- A provider double that always fails with HTTP status 404. -/
def http404Provider : Params → ProviderOutcome :=
  fun _ => .httpStatusError 404 "Not Found"

end WeatherServer

namespace WeatherServer

/-- C1: for every successful call of `get_current_weather`, the returned
hourly forecast has length exactly `min 3 (length of the hourly series)`,
and every index it reads lies inside the series bounds. -/
theorem c1_hourly_forecast_length (p : Params → ProviderOutcome)
    (city units : String) (coords : Coord) (resp : RawForecastResponse)
    (hc : cityLookup city = some coords)
    (hp : p (buildParams coords.latitude coords.longitude units) = .success resp) :
    ∃ rep, get_current_weather p city units = .ok rep ∧
      rep.hourly_forecast_next_3_hours.length = min 3 resp.hourlyValues.length ∧
      ∀ i, i < rep.hourly_forecast_next_3_hours.length →
        i < resp.hourlyValues.length := by
  refine ⟨buildReport city units resp, ?_, ?_, ?_⟩
  · simp [get_current_weather, hc, hp]
  · simp [buildReport, hourlyDataPoints]
  · intro i hi
    simp [buildReport, hourlyDataPoints] at hi
    omega

/-- Witness for C1 on a 1-point hourly series: exactly one entry comes back. -/
theorem c1_witness :
    onePointResponse.hourlyValues.length = 1 ∧
    cityLookup "Berlin" = some ⟨mkRat 5252 100, mkRat 1341 100⟩ ∧
    ∃ rep, get_current_weather onePointProvider "Berlin" "metric" = .ok rep ∧
      rep.hourly_forecast_next_3_hours.length =
        min 3 onePointResponse.hourlyValues.length ∧
      ∀ i, i < rep.hourly_forecast_next_3_hours.length →
        i < onePointResponse.hourlyValues.length :=
  ⟨by decide, by decide,
   c1_hourly_forecast_length onePointProvider "Berlin" "metric"
     ⟨mkRat 5252 100, mkRat 1341 100⟩ onePointResponse (by decide) rfl⟩

/-- C2: the outbound request fixes the current-variable order to
`[temperature, weather code, wind speed, humidity]`, the hourly selection to
temperature only, and the timezone mode to `"auto"`; the response's
current-instant values are read back positionally in exactly that order
(index 0 temperature, 1 weather code, 2 wind speed, 3 humidity), and the
report's fields are computed from those indices in those roles. -/
theorem c2_positional_order (lat lon : ℚ) (city units : String)
    (resp : RawForecastResponse) :
    (buildParams lat lon units).current =
      ["temperature_2m", "weather_code", "wind_speed_10m", "relative_humidity_2m"] ∧
    (buildParams lat lon units).hourly = "temperature_2m" ∧
    (buildParams lat lon units).timezone = "auto" ∧
    extractCurrentTemperature resp = resp.currentValue 0 ∧
    extractWeatherCode resp = resp.currentValue 1 ∧
    extractWindSpeed resp = resp.currentValue 2 ∧
    extractHumidity resp = resp.currentValue 3 ∧
    (buildReport city units resp).current_temperature =
      fmt1 (resp.currentValue 0) ++ (if units = "metric" then "°C" else "°F") ∧
    (buildReport city units resp).conditions =
      (weatherCodeLookup (pyInt (resp.currentValue 1))).getD "Unknown conditions" ∧
    (buildReport city units resp).wind_speed =
      fmt1 (resp.currentValue 2) ++ " " ++
        (if units = "metric" then "m/s" else "mph") ∧
    (buildReport city units resp).humidity =
      pyFloatStr (resp.currentValue 3) ++ "%" :=
  ⟨rfl, rfl, rfl, rfl, rfl, rfl, rfl, rfl, rfl, rfl, rfl⟩

/-- C3: for a city absent from the gazetteer, the result is an ErrorResult
whose message names the city and states it is unsupported, and the result
does not depend on the provider — the provider is never consulted. -/
theorem c3_city_not_found (city units : String)
    (h : cityLookup city = none) :
    (∀ p q, get_current_weather p city units = get_current_weather q city units) ∧
    ∀ p, get_current_weather p city units =
      .error ("City \x27" ++ city ++
        "\x27 not found. Please provide a supported city.") := by
  constructor
  · intro p q
    simp [get_current_weather, h]
  · intro p
    simp [get_current_weather, h]

/-- Witness for C3 at the unsupported city name "Atlantis". -/
theorem c3_witness :
    cityLookup "Atlantis" = none ∧
    ((∀ p q, get_current_weather p "Atlantis" "metric" =
        get_current_weather q "Atlantis" "metric") ∧
     ∀ p, get_current_weather p "Atlantis" "metric" =
       .error ("City \x27" ++ "Atlantis" ++
         "\x27 not found. Please provide a supported city.")) :=
  ⟨by decide, c3_city_not_found "Atlantis" "metric" (by decide)⟩

/-- C4 counterexample: on the §8 round-trip input (current values
`[21.3, 61, 3.2, 55]`, metric), the humidity field is the string "55.0%",
not the claimed integer-percentage "55%" — the code interpolates the raw
float with no integer conversion. -/
theorem c4_counterexample :
    get_current_weather testProvider "Berlin" "metric" =
      .ok (buildReport "Berlin" "metric" testResponse) ∧
    (buildReport "Berlin" "metric" testResponse).humidity = "55.0%" ∧
    "55.0%" ≠ "55%" := by
  refine ⟨by decide, by decide, by decide⟩

/-- C4 amended: current temperature and wind speed are formatted to one
decimal place with the unit symbol appended, while humidity is the raw
value's default float rendering with "%" appended (an integral 55 renders
as "55.0%"); on the §8 round-trip input the report carries "21.3°C",
"Rain (slight)", "3.2 m/s" and "55.0%". -/
theorem c4_formatting (city units : String) (resp : RawForecastResponse) :
    (buildReport city units resp).current_temperature =
      fmt1 (extractCurrentTemperature resp) ++
        (if units = "metric" then "°C" else "°F") ∧
    (buildReport city units resp).wind_speed =
      fmt1 (extractWindSpeed resp) ++ " " ++
        (if units = "metric" then "m/s" else "mph") ∧
    (buildReport city units resp).humidity =
      pyFloatStr (extractHumidity resp) ++ "%" ∧
    get_current_weather testProvider "Berlin" "metric" =
      .ok (buildReport "Berlin" "metric" testResponse) ∧
    (buildReport "Berlin" "metric" testResponse).current_temperature = "21.3°C" ∧
    (buildReport "Berlin" "metric" testResponse).conditions = "Rain (slight)" ∧
    (buildReport "Berlin" "metric" testResponse).wind_speed = "3.2 m/s" ∧
    (buildReport "Berlin" "metric" testResponse).humidity = "55.0%" :=
  ⟨rfl, rfl, rfl, by decide, by decide, by decide, by decide, by decide⟩

/-- C5: the displayed time of hourly point `i` is
`baseTimestamp + i * interval + utcOffsetSeconds` rendered as zero-padded
24-hour "HH:MM", and with `interval = 3600` the local time at index 1 is
exactly 3600 seconds after the local time at index 0. -/
theorem c5_hourly_local_time (resp : RawForecastResponse) (sym : String)
    (i : ℕ) (hi : i < (hourlyDataPoints resp sym).length) :
    ((hourlyDataPoints resp sym).getD i ("", "")).1 =
      fmtHM (hourlyLocalTime resp i) ∧
    (resp.hourlyInterval = 3600 →
      hourlyLocalTime resp 1 = hourlyLocalTime resp 0 + 3600) := by
  constructor
  · rw [List.getD_eq_getElem _ _ hi]
    simp [hourlyDataPoints, hourlyEntry]
  · intro h
    simp [hourlyLocalTime, h]
    ring

/-- Witness for C5 at `baseTimestamp = 1700000000`, `interval = 3600`,
`utcOffsetSeconds = 3600`, index 1. -/
theorem c5_witness :
    1 < (hourlyDataPoints testResponse "°C").length ∧
    testResponse.hourlyInterval = 3600 ∧
    (((hourlyDataPoints testResponse "°C").getD 1 ("", "")).1 =
       fmtHM (hourlyLocalTime testResponse 1) ∧
     (testResponse.hourlyInterval = 3600 →
       hourlyLocalTime testResponse 1 = hourlyLocalTime testResponse 0 + 3600)) :=
  ⟨by decide, by decide, c5_hourly_local_time testResponse "°C" 1 (by decide)⟩

end WeatherServer

namespace WeatherServer

/-- C6: a current weather code absent from the catalog yields the literal
"Unknown conditions" in the conditions field while the call still returns a
full successful WeatherReport, not an ErrorResult. -/
theorem c6_unknown_code (p : Params → ProviderOutcome) (city units : String)
    (coords : Coord) (resp : RawForecastResponse)
    (hc : cityLookup city = some coords)
    (hp : p (buildParams coords.latitude coords.longitude units) = .success resp)
    (hcode : weatherCodeLookup (pyInt (extractWeatherCode resp)) = none) :
    get_current_weather p city units = .ok (buildReport city units resp) ∧
    (buildReport city units resp).conditions = "Unknown conditions" := by
  constructor
  · simp [get_current_weather, hc, hp]
  · simp [buildReport, hcode]

/-- Witness for C6 at the unknown weather code 12. -/
theorem c6_witness :
    weatherCodeLookup (pyInt (extractWeatherCode unknownCodeResponse)) = none ∧
    (get_current_weather unknownCodeProvider "Berlin" "metric" =
       .ok (buildReport "Berlin" "metric" unknownCodeResponse) ∧
     (buildReport "Berlin" "metric" unknownCodeResponse).conditions =
       "Unknown conditions") :=
  ⟨by decide,
   c6_unknown_code unknownCodeProvider "Berlin" "metric"
     ⟨mkRat 5252 100, mkRat 1341 100⟩ unknownCodeResponse
     (by decide) rfl (by decide)⟩

/-- C7: every provider-call failure is converted at the routine boundary into
exactly one of the three ErrorResult kinds — HTTP-status (message carries the
status code and the city), network (message states connectivity failure and
the city), catch-all (message carries the failure description) — and every
non-success outcome yields an error result rather than an uncaught fault. -/
theorem c7_error_classification (p : Params → ProviderOutcome)
    (city units : String) (coords : Coord)
    (hc : cityLookup city = some coords) :
    (∀ status body,
      p (buildParams coords.latitude coords.longitude units) =
        .httpStatusError status body →
      get_current_weather p city units =
        .error ("HTTP error: " ++ toString status ++ " for " ++ city ++
          ". Check city name or API configuration.")) ∧
    (∀ d, p (buildParams coords.latitude coords.longitude units) =
        .requestError d →
      get_current_weather p city units =
        .error ("Network error: Could not connect to weather service for " ++
          city ++ ".")) ∧
    (∀ d, p (buildParams coords.latitude coords.longitude units) =
        .otherError d →
      get_current_weather p city units =
        .error ("An unexpected error occurred: " ++ d)) ∧
    ((∀ r, p (buildParams coords.latitude coords.longitude units) ≠ .success r) →
      (get_current_weather p city units).isError = true) := by
  refine ⟨?_, ?_, ?_, ?_⟩
  · intro status body h
    simp [get_current_weather, hc, h]
  · intro d h
    simp [get_current_weather, hc, h]
  · intro d h
    simp [get_current_weather, hc, h]
  · intro hns
    cases hpo : p (buildParams coords.latitude coords.longitude units) with
    | success r => exact absurd hpo (hns r)
    | httpStatusError status body =>
        simp [get_current_weather, hc, hpo, ToolResult.isError]
    | requestError d =>
        simp [get_current_weather, hc, hpo, ToolResult.isError]
    | otherError d =>
        simp [get_current_weather, hc, hpo, ToolResult.isError]

/-- Witness for C7 with a provider double that fails with HTTP 404. -/
theorem c7_witness :
    cityLookup "Berlin" = some ⟨mkRat 5252 100, mkRat 1341 100⟩ ∧
    ((∀ status body,
       http404Provider
           (buildParams (mkRat 5252 100) (mkRat 1341 100) "metric") =
         .httpStatusError status body →
       get_current_weather http404Provider "Berlin" "metric" =
         .error ("HTTP error: " ++ toString status ++ " for " ++ "Berlin" ++
           ". Check city name or API configuration.")) ∧
     (∀ d, http404Provider
           (buildParams (mkRat 5252 100) (mkRat 1341 100) "metric") =
         .requestError d →
       get_current_weather http404Provider "Berlin" "metric" =
         .error ("Network error: Could not connect to weather service for " ++
           "Berlin" ++ ".")) ∧
     (∀ d, http404Provider
           (buildParams (mkRat 5252 100) (mkRat 1341 100) "metric") =
         .otherError d →
       get_current_weather http404Provider "Berlin" "metric" =
         .error ("An unexpected error occurred: " ++ d)) ∧
     ((∀ r, http404Provider
           (buildParams (mkRat 5252 100) (mkRat 1341 100) "metric") ≠
         .success r) →
       (get_current_weather http404Provider "Berlin" "metric").isError = true)) :=
  ⟨by decide,
   c7_error_classification http404Provider "Berlin" "metric"
     ⟨mkRat 5252 100, mkRat 1341 100⟩ (by decide)⟩

/-- C8 counterexample: the units value "kelvin", outside {metric, imperial},
is not rejected — the request is built with the imperial tokens
fahrenheit/mph and the call still returns a successful WeatherReport. -/
theorem c8_counterexample :
    (buildParams (mkRat 5252 100) (mkRat 1341 100) "kelvin").temperature_unit =
      "fahrenheit" ∧
    (buildParams (mkRat 5252 100) (mkRat 1341 100) "kelvin").wind_speed_unit =
      "mph" ∧
    get_current_weather testProvider "Berlin" "kelvin" =
      .ok (buildReport "Berlin" "kelvin" testResponse) ∧
    (get_current_weather testProvider "Berlin" "kelvin").isError = false := by
  refine ⟨by decide, by decide, by decide, by decide⟩

/-- C8 amended: the unit-token derivation is total over all unit strings —
"metric" yields celsius/ms and every other value, including values outside
{metric, imperial}, silently yields the imperial tokens fahrenheit/mph; no
input is rejected and a successful provider response still produces a
successful report. -/
theorem c8_units_total (lat lon : ℚ) (units : String) :
    (buildParams lat lon units).temperature_unit =
      (if units = "metric" then "celsius" else "fahrenheit") ∧
    (buildParams lat lon units).wind_speed_unit =
      (if units = "metric" then "ms" else "mph") ∧
    (units ≠ "metric" →
      (buildParams lat lon units).temperature_unit = "fahrenheit" ∧
      (buildParams lat lon units).wind_speed_unit = "mph") ∧
    ∀ (p : Params → ProviderOutcome) (city : String) (coords : Coord)
      (resp : RawForecastResponse),
      cityLookup city = some coords →
      p (buildParams coords.latitude coords.longitude units) = .success resp →
      (get_current_weather p city units).isError = false := by
  refine ⟨rfl, rfl, ?_, ?_⟩
  · intro h
    simp [buildParams, h]
  · intro p city coords resp hc hp
    simp [get_current_weather, hc, hp, ToolResult.isError]

/-- Witness for C8 at the invalid units value "kelvin". -/
theorem c8_witness :
    ("kelvin" : String) ≠ "metric" ∧
    (buildParams (mkRat 5252 100) (mkRat 1341 100) "kelvin").temperature_unit =
      "fahrenheit" ∧
    (buildParams (mkRat 5252 100) (mkRat 1341 100) "kelvin").wind_speed_unit =
      "mph" ∧
    cityLookup "Berlin" = some ⟨mkRat 5252 100, mkRat 1341 100⟩ ∧
    (get_current_weather testProvider "Berlin" "kelvin").isError = false :=
  ⟨by decide,
   ((c8_units_total (mkRat 5252 100) (mkRat 1341 100) "kelvin").2.2.1
     (by decide)).1,
   ((c8_units_total (mkRat 5252 100) (mkRat 1341 100) "kelvin").2.2.1
     (by decide)).2,
   by decide,
   (c8_units_total (mkRat 5252 100) (mkRat 1341 100) "kelvin").2.2.2
     testProvider "Berlin" ⟨mkRat 5252 100, mkRat 1341 100⟩ testResponse
     (by decide) rfl⟩

/-- C9: switching from metric to imperial changes only the unit tokens in the
outbound request (celsius→fahrenheit, ms→mph) — all other request fields are
identical — and only the symbols in the formatted output (°C→°F, m/s→mph):
the numeric substrings, the humidity string and the conditions string are the
same in the two runs, each hourly entry keeps the same time string and the
same numeric temperature part with only the symbol differing, and the
passthrough metadata and city are identical. -/
theorem c9_unit_switch (lat lon : ℚ) (city : String)
    (resp : RawForecastResponse) :
    (buildParams lat lon "imperial").latitude =
      (buildParams lat lon "metric").latitude ∧
    (buildParams lat lon "imperial").longitude =
      (buildParams lat lon "metric").longitude ∧
    (buildParams lat lon "imperial").current =
      (buildParams lat lon "metric").current ∧
    (buildParams lat lon "imperial").hourly =
      (buildParams lat lon "metric").hourly ∧
    (buildParams lat lon "imperial").timezone =
      (buildParams lat lon "metric").timezone ∧
    (buildParams lat lon "metric").temperature_unit = "celsius" ∧
    (buildParams lat lon "imperial").temperature_unit = "fahrenheit" ∧
    (buildParams lat lon "metric").wind_speed_unit = "ms" ∧
    (buildParams lat lon "imperial").wind_speed_unit = "mph" ∧
    (buildReport city "metric" resp).current_temperature =
      fmt1 (extractCurrentTemperature resp) ++ "°C" ∧
    (buildReport city "imperial" resp).current_temperature =
      fmt1 (extractCurrentTemperature resp) ++ "°F" ∧
    (buildReport city "metric" resp).wind_speed =
      fmt1 (extractWindSpeed resp) ++ " " ++ "m/s" ∧
    (buildReport city "imperial" resp).wind_speed =
      fmt1 (extractWindSpeed resp) ++ " " ++ "mph" ∧
    (buildReport city "metric" resp).humidity =
      (buildReport city "imperial" resp).humidity ∧
    (buildReport city "metric" resp).conditions =
      (buildReport city "imperial" resp).conditions ∧
    (buildReport city "metric" resp).hourly_forecast_next_3_hours =
      hourlyDataPoints resp "°C" ∧
    (buildReport city "imperial" resp).hourly_forecast_next_3_hours =
      hourlyDataPoints resp "°F" ∧
    (hourlyDataPoints resp "°C").length = (hourlyDataPoints resp "°F").length ∧
    (∀ i, (hourlyEntry resp "°C" i).1 = (hourlyEntry resp "°F" i).1) ∧
    (∀ i, (hourlyEntry resp "°C" i).1 = fmtHM (hourlyLocalTime resp i)) ∧
    (∀ i, (hourlyEntry resp "°C" i).2 =
      fmt1 (resp.hourlyValues.getD i 0) ++ "°C") ∧
    (∀ i, (hourlyEntry resp "°F" i).2 =
      fmt1 (resp.hourlyValues.getD i 0) ++ "°F") ∧
    (buildReport city "metric" resp).meta_latitude =
      (buildReport city "imperial" resp).meta_latitude ∧
    (buildReport city "metric" resp).meta_longitude =
      (buildReport city "imperial" resp).meta_longitude ∧
    (buildReport city "metric" resp).meta_elevation =
      (buildReport city "imperial" resp).meta_elevation ∧
    (buildReport city "metric" resp).meta_timezone_offset =
      (buildReport city "imperial" resp).meta_timezone_offset ∧
    (buildReport city "metric" resp).city =
      (buildReport city "imperial" resp).city := by
  refine ⟨rfl, rfl, rfl, rfl, rfl, rfl, rfl, rfl, rfl, rfl, rfl, rfl, rfl,
    rfl, rfl, rfl, rfl, ?_, fun i => rfl, fun i => rfl, fun i => rfl,
    fun i => rfl, rfl, rfl, rfl, rfl, rfl⟩
  simp [hourlyDataPoints]

/-- C10: the current weather code is truncated toward zero by `int(...)`
before the catalog lookup, so a non-integer code whose truncation equals a
catalog key yields that key description rather than the fallback. -/
theorem c10_code_truncation (city units : String)
    (resp : RawForecastResponse) (k : ℤ) (d : String)
    (hk : pyInt (extractWeatherCode resp) = k)
    (hd : weatherCodeLookup k = some d) :
    (buildReport city units resp).conditions = d := by
  simp [buildReport, hk, hd]

/-- Witness for C10 at the non-integer code 61.9, which truncates to the
catalog key 61, "Rain (slight)". -/
theorem c10_witness :
    pyInt (extractWeatherCode fracCodeResponse) = 61 ∧
    weatherCodeLookup 61 = some "Rain (slight)" ∧
    (buildReport "Berlin" "metric" fracCodeResponse).conditions =
      "Rain (slight)" :=
  ⟨by decide, by decide,
   c10_code_truncation "Berlin" "metric" fracCodeResponse 61 "Rain (slight)"
     (by decide) (by decide)⟩

end WeatherServer
